import Mathlib

/-!
Shallow embedding of the geo-resolution core of `zscan` (`pkg/stage/ipinfo.go`).

The Go file owns two MaxMind database handles (city, ASN), provisions the
backing files by HTTP download when absent, answers IP lookups, and closes the
handles on teardown.  External collaborators (the Go standard library's
`net.ParseIP`, `http.Get`, `os` filesystem calls, and the `geoip2` reader
library) are modelled as explicit oracle parameters; the control flow of each
function in the repository is translated statement by statement.

Conventions:
* A Go `map[string]string` is an `Option (List (String × String))`:
  `none` is the nil map, lookup takes the first matching key.
* Float64 fields (latitude, longitude) are only ever copied verbatim by the
  code, never computed with, so they are represented abstractly by `Int`.
* Filesystem state is an association list from path to file content; writing
  prepends, lookup takes the newest entry.
* Effects the claims talk about (database queries, download attempts, handle
  opens/closes) are returned as explicit event lists.
-/

set_option autoImplicit false

namespace ZScan

/-- Go `map[string]string` value: `none` is the nil map. -/
abbrev GoStrMap := Option (List (String × String))

/-- Key lookup in the underlying association list (Go map indexing `m[k]`). -/
def mapFind (m : List (String × String)) (k : String) : Option String :=
  m.lookup k

/-- Embeds `getLocalizedName` from `ipinfo.go`: nil-map check, then the
requested language key, then the `"en"` key, else empty. -/
def getLocalizedName (names : GoStrMap) (lang : String) : String :=
  match names with
  | none => ""
  | some m =>
    match mapFind m lang with
    | some name => name
    | none =>
      match mapFind m "en" with
      | some name => name
      | none => ""

/-- One subdivision entry of a geoip2 city record. -/
structure Subdivision where
  names : GoStrMap
  isoCode : String
deriving DecidableEq, Repr

/-- The parts of a `geoip2.City` record that `GetIPInfo` reads. -/
structure CityResult where
  continentNames : GoStrMap
  continentCode : String
  countryNames : GoStrMap
  countryIsoCode : String
  cityNames : GoStrMap
  locationTimeZone : String
  postalCode : String
  latitude : Int
  longitude : Int
  accuracyRadius : Nat
  subdivisions : List Subdivision
deriving DecidableEq, Repr

/-- The parts of a `geoip2.ASN` record that `GetIPInfo` reads. -/
structure ASNResult where
  autonomousSystemNumber : Nat
  autonomousSystemOrganization : String
deriving DecidableEq, Repr

/-- Embeds the Go `IPDetails` struct; the defaults are Go's zero values, taken
by every field the composite literal in `GetIPInfo` omits. -/
structure IPDetails where
  continent : String := ""
  continentCode : String := ""
  country : String := ""
  countryCode : String := ""
  region : String := ""
  regionCode : String := ""
  city : String := ""
  postalCode : String := ""
  latitude : Int := 0
  longitude : Int := 0
  timeZone : String := ""
  asn : Nat := 0
  asnOrg : String := ""
  isp : String := ""
  domain : String := ""
  networkType : String := ""
  isAnonymous : Bool := false
  isAnonymousVPN : Bool := false
  isHosting : Bool := false
  isProxy : Bool := false
  isTorExitNode : Bool := false
  accuracyRadius : Nat := 0
deriving DecidableEq, Repr

/-- The errors `GetIPInfo` can return, one constructor per `fmt.Errorf` site;
each carries the message of the underlying failure where one exists. -/
inductive LookupError where
  | invalidAddressError
  | cityLookupError (cause : String)
  | asnLookupError (cause : String)
deriving DecidableEq, Repr

/-- A query issued against one of the two database handles. -/
inductive DBQuery where
  | cityQuery (ip : String)
  | asnQuery (ip : String)
deriving DecidableEq, Repr

/-- Embeds `GetIPInfo` from `ipinfo.go`.  `parseIP` stands for the standard
library's `net.ParseIP` (a parsed address is represented by a canonical
string); `cityDB` and `asnDB` stand for the two open reader handles.  Besides
the Go result the embedding returns the list of database queries issued, in
order. -/
def GetIPInfo (parseIP : String → Option String)
    (cityDB : String → Except String CityResult)
    (asnDB : String → Except String ASNResult)
    (ip : String) : Except LookupError IPDetails × List DBQuery :=
  match parseIP ip with
  | none => (.error .invalidAddressError, [])
  | some parsed =>
    match cityDB parsed with
    | .error e => (.error (.cityLookupError e), [.cityQuery parsed])
    | .ok city =>
      match asnDB parsed with
      | .error e =>
        (.error (.asnLookupError e), [.cityQuery parsed, .asnQuery parsed])
      | .ok asn =>
        let details : IPDetails :=
          { continent := getLocalizedName city.continentNames "en"
            continentCode := city.continentCode
            country := getLocalizedName city.countryNames "en"
            countryCode := city.countryIsoCode
            city := getLocalizedName city.cityNames "en"
            timeZone := city.locationTimeZone
            postalCode := city.postalCode
            latitude := city.latitude
            longitude := city.longitude
            asn := asn.autonomousSystemNumber
            asnOrg := asn.autonomousSystemOrganization
            accuracyRadius := city.accuracyRadius % 65536 }
        let details2 :=
          match city.subdivisions with
          | [] => details
          | sub :: _ =>
            { details with
                region := getLocalizedName sub.names "en"
                regionCode := sub.isoCode }
        (.ok details2, [.cityQuery parsed, .asnQuery parsed])

/-- The mutable handle fields of the Go `IPInfo` struct.  A handle is
identified by the path it was opened on; `none` is a nil reader field. -/
structure IPInfoState where
  cityReader : Option String
  asnReader : Option String
  dbDir : String
deriving DecidableEq, Repr

/-- Provisioning / teardown events: a download attempt against a URL, and the
opening or closing of a reader handle. -/
inductive DBEvent where
  | downloadAttempt (url : String)
  | openedHandle (path : String)
  | closedHandle (path : String)
deriving DecidableEq, Repr

/-- Local filesystem state: association list from path to file content, newest
entry first. -/
abbrev FS := List (String × String)

/-- File content at a path (`none` when the file does not exist). -/
def lookupFS (fsys : FS) (p : String) : Option String :=
  fsys.lookup p

/-- Create/overwrite a file (newest entry shadows older ones). -/
def setFS (fsys : FS) (p c : String) : FS :=
  (p, c) :: fsys

/-- `os.Stat` + `os.IsNotExist`: the existence check `ensureDatabases` uses. -/
def fileExists (fsys : FS) (p : String) : Bool :=
  (lookupFS fsys p).isSome

/-- An `http.Get` outcome: a response (status code, status line, body), or a
transport error. -/
structure HTTPResponse where
  statusCode : Nat
  status : String
  body : String
deriving DecidableEq, Repr

inductive HTTPResult where
  | ok (resp : HTTPResponse)
  | err (cause : String)
deriving DecidableEq, Repr

/-- The failure modes of `downloadFile`, one per `return` site carrying the
underlying message: a transport error from `http.Get`, the
`fmt.Errorf("bad status: %s", resp.Status)` branch, an `os.Create` failure or
an `io.Copy` failure. -/
inductive DLError where
  | transportError (cause : String)
  | badStatus (status : String)
  | createError (cause : String)
  | copyError (cause : String)
deriving DecidableEq, Repr

/-- Embeds `downloadFile` from `ipinfo.go`.  `get` stands for `http.Get`;
`createErr`/`copyErr` are oracles for local I/O failures of `os.Create` and
`io.Copy` at a path.  `os.Create` truncates the destination to empty; a
successful `io.Copy` then streams the full response body into it.  The Go code
rejects every status other than exactly `http.StatusOK` (200). -/
def downloadFile (get : String → HTTPResult)
    (createErr copyErr : String → Option String)
    (fsys : FS) (url fpath : String) : Except DLError Unit × FS :=
  match get url with
  | .err c => (.error (.transportError c), fsys)
  | .ok resp =>
    if resp.statusCode ≠ 200 then
      (.error (.badStatus resp.status), fsys)
    else
      match createErr fpath with
      | some c => (.error (.createError c), fsys)
      | none =>
        let fsys1 := setFS fsys fpath ""
        match copyErr fpath with
        | some c => (.error (.copyError c), fsys1)
        | none => (.ok (), setFS fsys1 fpath resp.body)

/-- `filepath.Join` restricted to the joins the file performs. -/
def joinPath (dir file : String) : String :=
  dir ++ "/" ++ file

def cityDBName : String := "GeoLite2-City.mmdb"

def asnDBName : String := "GeoLite2-ASN.mmdb"

def cityDBURL : String :=
  "https://raw.githubusercontent.com/zcyberseclab/zscan/main/data/GeoLite2-City.mmdb"

def asnDBURL : String :=
  "https://raw.githubusercontent.com/zcyberseclab/zscan/main/data/GeoLite2-ASN.mmdb"

/-- The failure modes of `ensureDatabases`: a wrapped download failure
(`failed to download ... database: %v`) or a wrapped `geoip2.Open` failure
(`failed to open ... database: %v`); `which` is `"city"` or `"asn"`. -/
inductive EnsureError where
  | downloadError (which : String) (cause : DLError)
  | databaseOpenError (which : String) (cause : String)
deriving DecidableEq, Repr

/-- Embeds `ensureDatabases` from `ipinfo.go`.  `openErr` stands for
`geoip2.Open`: given the path and the file content found there (`none` when
absent) it yields `some cause` on failure, `none` on success, in which case
the reader field is set to a handle on that path.  On an ASN-open failure the
already-open city handle is closed (Go leaves the closed reader in the field;
`geoip2.Open` returns a nil reader on its own failure).  Returns the Go error
outcome, the final handle fields, the final filesystem, and the event list. -/
def ensureDatabases (get : String → HTTPResult)
    (createErr copyErr : String → Option String)
    (openErr : String → Option String → Option String)
    (st : IPInfoState) (fsys : FS) :
    Except EnsureError Unit × IPInfoState × FS × List DBEvent :=
  let cityDB := joinPath st.dbDir cityDBName
  let asnDB := joinPath st.dbDir asnDBName
  let step1 : Except EnsureError Unit × FS × List DBEvent :=
    if fileExists fsys cityDB then (.ok (), fsys, [])
    else
      match downloadFile get createErr copyErr fsys cityDBURL cityDB with
      | (.error e, fs1) =>
        (.error (.downloadError "city" e), fs1, [.downloadAttempt cityDBURL])
      | (.ok _, fs1) => (.ok (), fs1, [.downloadAttempt cityDBURL])
  match step1 with
  | (.error e, fs1, evs1) => (.error e, st, fs1, evs1)
  | (.ok _, fs1, evs1) =>
    let step2 : Except EnsureError Unit × FS × List DBEvent :=
      if fileExists fs1 asnDB then (.ok (), fs1, evs1)
      else
        match downloadFile get createErr copyErr fs1 asnDBURL asnDB with
        | (.error e, fs2) =>
          (.error (.downloadError "asn" e), fs2,
           evs1 ++ [.downloadAttempt asnDBURL])
        | (.ok _, fs2) => (.ok (), fs2, evs1 ++ [.downloadAttempt asnDBURL])
    match step2 with
    | (.error e, fs2, evs2) => (.error e, st, fs2, evs2)
    | (.ok _, fs2, evs2) =>
      match openErr cityDB (lookupFS fs2 cityDB) with
      | some c =>
        (.error (.databaseOpenError "city" c),
         { st with cityReader := none }, fs2, evs2)
      | none =>
        let st1 := { st with cityReader := some cityDB }
        let evs3 := evs2 ++ [.openedHandle cityDB]
        match openErr asnDB (lookupFS fs2 asnDB) with
        | some c =>
          (.error (.databaseOpenError "asn" c),
           { st1 with asnReader := none }, fs2,
           evs3 ++ [.closedHandle cityDB])
        | none =>
          (.ok (), { st1 with asnReader := some asnDB }, fs2,
           evs3 ++ [.openedHandle asnDB])

/-- The failure modes of `NewIPInfo`: a configuration failure (home directory
resolution or `os.MkdirAll`) or a propagated `ensureDatabases` failure. -/
inductive NewError where
  | configError (cause : String)
  | ensureError (e : EnsureError)
deriving DecidableEq, Repr

/-- Embeds `NewIPInfo` from `ipinfo.go`.  `userHomeDir` stands for
`os.UserHomeDir`, `mkdirAllErr` for `os.MkdirAll` on the directory; on success
the returned state has both readers open, otherwise the constructor fails. -/
def NewIPInfo (userHomeDir : Except String String)
    (mkdirAllErr : String → Option String)
    (get : String → HTTPResult)
    (createErr copyErr : String → Option String)
    (openErr : String → Option String → Option String)
    (dbDir : String) (fsys : FS) :
    Except NewError IPInfoState × FS × List DBEvent :=
  let dirRes : Except NewError String :=
    if dbDir = "" then
      match userHomeDir with
      | .error c => .error (.configError c)
      | .ok home => .ok (joinPath (joinPath home ".zscan") "geoip")
    else .ok dbDir
  match dirRes with
  | .error e => (.error e, fsys, [])
  | .ok dir =>
    match mkdirAllErr dir with
    | some c => (.error (.configError c), fsys, [])
    | none =>
      let st0 : IPInfoState := { cityReader := none, asnReader := none, dbDir := dir }
      match ensureDatabases get createErr copyErr openErr st0 fsys with
      | (.error e, _, fs1, evs) => (.error (.ensureError e), fs1, evs)
      | (.ok _, st1, fs1, evs) => (.ok st1, fs1, evs)

/-- The handles still open after a sequence of events: opened and not
subsequently closed. -/
def openAfter (evs : List DBEvent) : List String :=
  evs.foldl
    (fun acc e =>
      match e with
      | .openedHandle p => acc ++ [p]
      | .closedHandle p => acc.erase p
      | .downloadAttempt _ => acc) []

/-- The URLs of the download attempts in an event list, in order. -/
def downloadsOf (evs : List DBEvent) : List String :=
  evs.filterMap
    (fun e =>
      match e with
      | .downloadAttempt u => some u
      | _ => none)

/-- Embeds `Close` from `ipinfo.go`: under the exclusive lock, each of the two
reader fields is closed exactly when it is non-nil.  The returned list is the
sequence of close operations performed. -/
def Close (st : IPInfoState) : List DBEvent :=
  (match st.cityReader with
   | some h => [DBEvent.closedHandle h]
   | none => []) ++
  (match st.asnReader with
   | some h => [DBEvent.closedHandle h]
   | none => [])

end ZScan

namespace ZScan

/-- C4: `getLocalizedName` is a total function implementing the fallback
chain: nil/empty map ⇒ `""`; requested-language key ⇒ its value; else `"en"`
key ⇒ its value; else `""`; including the three concrete examples
`resolve({"en":"Germany","de":"Deutschland"}, "fr") = "Germany"`,
`resolve({}, "en") = ""` and `resolve(nil, "en") = ""`. -/
theorem getLocalizedName_fallback_chain :
    (∀ lang, getLocalizedName none lang = "") ∧
    (∀ lang, getLocalizedName (some []) lang = "") ∧
    (∀ m lang v, mapFind m lang = some v →
      getLocalizedName (some m) lang = v) ∧
    (∀ m lang v, mapFind m lang = none → mapFind m "en" = some v →
      getLocalizedName (some m) lang = v) ∧
    (∀ m lang, mapFind m lang = none → mapFind m "en" = none →
      getLocalizedName (some m) lang = "") ∧
    getLocalizedName
      (some [("en", "Germany"), ("de", "Deutschland")]) "fr" = "Germany" ∧
    getLocalizedName (some []) "en" = "" ∧
    getLocalizedName none "en" = "" := by
  refine ⟨fun _ => rfl, fun lang => rfl, ?_, ?_, ?_, rfl, rfl, rfl⟩
  · intro m lang v h
    simp [getLocalizedName, h]
  · intro m lang v h h'
    simp [getLocalizedName, h, h']
  · intro m lang h h'
    simp [getLocalizedName, h, h']

/-- Witness for C4: the requested-language branch evaluated at a concrete
map. -/
theorem getLocalizedName_fallback_chain_witness :
    getLocalizedName (some [("de", "Deutschland")]) "de" = "Deutschland" :=
  getLocalizedName_fallback_chain.2.2.1 [("de", "Deutschland")] "de"
    "Deutschland" rfl

/-- C1: when the input string does not parse as an IP address, `GetIPInfo`
fails with the invalid-address error and issues no query against either
database handle. -/
theorem GetIPInfo_invalid_address_no_queries :
    ∀ (parseIP : String → Option String)
      (cityDB : String → Except String CityResult)
      (asnDB : String → Except String ASNResult) (ip : String),
      parseIP ip = none →
      GetIPInfo parseIP cityDB asnDB ip =
        (.error .invalidAddressError, []) := by
  intro parseIP cityDB asnDB ip h
  simp [GetIPInfo, h]

/-- Witness for C1 at a concrete non-parsing input. -/
theorem GetIPInfo_invalid_address_no_queries_witness :
    GetIPInfo (fun _ => none)
      (fun _ => .error "unused") (fun _ => .ok ⟨0, ""⟩) "not-an-ip" =
      (.error .invalidAddressError, []) :=
  GetIPInfo_invalid_address_no_queries (fun _ => none)
    (fun _ => .error "unused") (fun _ => .ok ⟨0, ""⟩) "not-an-ip" rfl

/-- C10: `Close` closes exactly the non-nil reader fields: with both fields
nil it performs no close operation, every non-nil handle is closed, and every
close event stems from one of the two fields. -/
theorem Close_only_nonnil_handles (st : IPInfoState) :
    (st.cityReader = none → st.asnReader = none → Close st = []) ∧
    (∀ h, st.cityReader = some h → DBEvent.closedHandle h ∈ Close st) ∧
    (∀ h, st.asnReader = some h → DBEvent.closedHandle h ∈ Close st) ∧
    (∀ h, DBEvent.closedHandle h ∈ Close st →
      st.cityReader = some h ∨ st.asnReader = some h) := by
  rcases st with ⟨cr, ar, d⟩
  cases cr <;> cases ar <;>
    simp [Close]

/-- Witness for C10: closing a never-opened resolver performs no close
operation. -/
theorem Close_only_nonnil_handles_witness :
    Close { cityReader := none, asnReader := none, dbDir := "d" } = [] :=
  (Close_only_nonnil_handles
    { cityReader := none, asnReader := none, dbDir := "d" }).1 rfl rfl

/-- C9: `GetIPInfo` is deterministic: its outcome depends only on the parse
result and on the database contents at the parsed address, so two invocations
against equal database contents return identical records or identical
errors. -/
theorem GetIPInfo_deterministic :
    ∀ (parseIP : String → Option String)
      (cityDB₁ cityDB₂ : String → Except String CityResult)
      (asnDB₁ asnDB₂ : String → Except String ASNResult) (ip : String),
      (∀ p, parseIP ip = some p →
        cityDB₁ p = cityDB₂ p ∧ asnDB₁ p = asnDB₂ p) →
      GetIPInfo parseIP cityDB₁ asnDB₁ ip =
        GetIPInfo parseIP cityDB₂ asnDB₂ ip := by
  intro parseIP cityDB₁ cityDB₂ asnDB₁ asnDB₂ ip h
  cases hp : parseIP ip with
  | none => simp [GetIPInfo, hp]
  | some p =>
    obtain ⟨h₁, h₂⟩ := h p hp
    simp only [GetIPInfo, hp, h₁, h₂]

/-- C6: every record returned by a successful `GetIPInfo` call leaves the
ISP, domain and network-type strings empty and all five risk flags false:
the composite literal never populates these declared fields. -/
theorem GetIPInfo_unpopulated_fields :
    ∀ (parseIP : String → Option String)
      (cityDB : String → Except String CityResult)
      (asnDB : String → Except String ASNResult) (ip : String)
      (d : IPDetails),
      (GetIPInfo parseIP cityDB asnDB ip).1 = .ok d →
      d.isp = "" ∧ d.domain = "" ∧ d.networkType = "" ∧
      d.isAnonymous = false ∧ d.isAnonymousVPN = false ∧
      d.isHosting = false ∧ d.isProxy = false ∧ d.isTorExitNode = false := by
  intro parseIP cityDB asnDB ip d h
  cases hp : parseIP ip with
  | none => simp [GetIPInfo, hp] at h
  | some p =>
    cases hc : cityDB p with
    | error e => simp [GetIPInfo, hp, hc] at h
    | ok city =>
      cases ha : asnDB p with
      | error e => simp [GetIPInfo, hp, hc, ha] at h
      | ok asn =>
        simp only [GetIPInfo, hp, hc, ha] at h
        cases hs : city.subdivisions <;>
          simp only [hs, Except.ok.injEq] at h <;>
          subst h <;> simp

/-- Witness for C6 on a concrete successful lookup. -/
theorem GetIPInfo_unpopulated_fields_witness :
    ({ continent := "Europe", asn := 13335,
       asnOrg := "ORG" : IPDetails }).isp = "" ∧
    ({ continent := "Europe", asn := 13335,
       asnOrg := "ORG" : IPDetails }).domain = "" ∧
    ({ continent := "Europe", asn := 13335,
       asnOrg := "ORG" : IPDetails }).networkType = "" ∧
    ({ continent := "Europe", asn := 13335,
       asnOrg := "ORG" : IPDetails }).isAnonymous = false ∧
    ({ continent := "Europe", asn := 13335,
       asnOrg := "ORG" : IPDetails }).isAnonymousVPN = false ∧
    ({ continent := "Europe", asn := 13335,
       asnOrg := "ORG" : IPDetails }).isHosting = false ∧
    ({ continent := "Europe", asn := 13335,
       asnOrg := "ORG" : IPDetails }).isProxy = false ∧
    ({ continent := "Europe", asn := 13335,
       asnOrg := "ORG" : IPDetails }).isTorExitNode = false :=
  GetIPInfo_unpopulated_fields (fun _ => some "1.1.1.1")
    (fun _ => .ok { continentNames := some [("en", "Europe")],
                    continentCode := "", countryNames := none,
                    countryIsoCode := "", cityNames := none,
                    locationTimeZone := "", postalCode := "",
                    latitude := 0, longitude := 0, accuracyRadius := 0,
                    subdivisions := [] })
    (fun _ => .ok ⟨13335, "ORG"⟩) "1.1.1.1"
    { continent := "Europe", asn := 13335, asnOrg := "ORG" } rfl

/-- C7: on a successful lookup, the region name and code come from the first
entry of the city result's subdivision list when that list is non-empty (name
resolved through `getLocalizedName`), and stay empty when it is empty. -/
theorem GetIPInfo_region_first_subdivision :
    ∀ (parseIP : String → Option String)
      (cityDB : String → Except String CityResult)
      (asnDB : String → Except String ASNResult) (ip p : String)
      (city : CityResult) (asn : ASNResult) (d : IPDetails),
      parseIP ip = some p → cityDB p = .ok city → asnDB p = .ok asn →
      (GetIPInfo parseIP cityDB asnDB ip).1 = .ok d →
      (city.subdivisions = [] → d.region = "" ∧ d.regionCode = "") ∧
      (∀ sub rest, city.subdivisions = sub :: rest →
        d.region = getLocalizedName sub.names "en" ∧
        d.regionCode = sub.isoCode) := by
  intro parseIP cityDB asnDB ip p city asn d hp hc ha h
  simp only [GetIPInfo, hp, hc, ha] at h
  cases hs : city.subdivisions with
  | nil =>
    simp only [hs, Except.ok.injEq] at h
    subst h
    constructor
    · intro _; exact ⟨rfl, rfl⟩
    · intro sub rest hcontra
      exact absurd hcontra (by simp)
  | cons sub rest =>
    simp only [hs, Except.ok.injEq] at h
    subst h
    constructor
    · intro hcontra
      exact absurd hcontra (by simp)
    · intro sub' rest' hh
      cases hh
      exact ⟨rfl, rfl⟩

/-- Witness for C7 on a lookup whose city record has one subdivision. -/
theorem GetIPInfo_region_first_subdivision_witness :
    (([⟨some [("en", "California")], "CA"⟩] : List Subdivision) = [] →
      ({ region := "California", regionCode := "CA" : IPDetails }).region
        = "" ∧
      ({ region := "California", regionCode := "CA" : IPDetails }).regionCode
        = "") ∧
    (∀ sub rest,
      ([⟨some [("en", "California")], "CA"⟩] : List Subdivision) =
        sub :: rest →
      ({ region := "California", regionCode := "CA" : IPDetails }).region =
        getLocalizedName sub.names "en" ∧
      ({ region := "California", regionCode := "CA" : IPDetails }).regionCode
        = sub.isoCode) :=
  GetIPInfo_region_first_subdivision (fun _ => some "1.1.1.1")
    (fun _ => .ok { continentNames := none, continentCode := "",
                    countryNames := none, countryIsoCode := "",
                    cityNames := none, locationTimeZone := "",
                    postalCode := "", latitude := 0, longitude := 0,
                    accuracyRadius := 0,
                    subdivisions := [⟨some [("en", "California")], "CA"⟩] })
    (fun _ => .ok ⟨0, ""⟩) "1.1.1.1" "1.1.1.1" _ ⟨0, ""⟩
    { region := "California", regionCode := "CA" } rfl rfl rfl rfl

/-- Witness for C9: two calls over the same fixture contents agree. -/
theorem GetIPInfo_deterministic_witness :
    GetIPInfo (fun _ => some "1.2.3.4")
      (fun _ => .error "miss") (fun _ => .ok ⟨13335, "X"⟩) "1.2.3.4" =
    GetIPInfo (fun _ => some "1.2.3.4")
      (fun _ => .error "miss") (fun _ => .ok ⟨13335, "X"⟩) "1.2.3.4" :=
  GetIPInfo_deterministic (fun _ => some "1.2.3.4")
    (fun _ => .error "miss") (fun _ => .error "miss")
    (fun _ => .ok ⟨13335, "X"⟩) (fun _ => .ok ⟨13335, "X"⟩) "1.2.3.4"
    (fun _ _ => ⟨rfl, rfl⟩)

/-- Writing one path leaves lookups at any other path unchanged. -/
theorem lookupFS_setFS_ne (fsys : FS) (p c q : String) (h : q ≠ p) :
    lookupFS (setFS fsys p c) q = lookupFS fsys q := by
  have hb : (q == p) = false := by simp [h]
  simp [lookupFS, setFS, List.lookup, hb]

/-- `downloadFile` touches only its destination path: the content of every
other path is preserved. -/
theorem downloadFile_lookup_ne (get : String → HTTPResult)
    (createErr copyErr : String → Option String) (fsys : FS)
    (url fpath q : String) (h : q ≠ fpath) :
    lookupFS (downloadFile get createErr copyErr fsys url fpath).2 q =
      lookupFS fsys q := by
  cases hg : get url with
  | err c => simp [downloadFile, hg]
  | ok r =>
    by_cases hs : r.statusCode = 200
    · cases hc : createErr fpath with
      | some c => simp [downloadFile, hg, hs, hc]
      | none =>
        cases hp : copyErr fpath with
        | some c =>
          simp [downloadFile, hg, hs, hc, hp, lookupFS_setFS_ne _ _ _ _ h]
        | none =>
          simp [downloadFile, hg, hs, hc, hp, lookupFS_setFS_ne _ _ _ _ h]
    · simp [downloadFile, hg, hs]

/-- The two database files have distinct paths under any directory. -/
theorem cityPath_ne_asnPath (d : String) :
    joinPath d cityDBName ≠ joinPath d asnDBName := by
  intro h
  have h2 : (d ++ "/").data ++ cityDBName.data =
      (d ++ "/").data ++ asnDBName.data := by
    have h1 := congrArg String.data h
    simpa [joinPath, String.data_append] using h1
  have h3 := List.append_cancel_left h2
  exact absurd h3 (by decide)

/-- C2: provisioning is all-or-nothing.  Whenever `ensureDatabases` returns,
either it succeeded and both handles are open (the handle fields hold the two
database paths and exactly those two opens are outstanding), or it failed and
no handle remains open; in the case where opening the ASN database fails
after the city database was opened, the close of the city handle is among the
events emitted before the open-error is returned. -/
theorem ensureDatabases_all_or_nothing :
    ∀ (get : String → HTTPResult) (createErr copyErr : String → Option String)
      (openErr : String → Option String → Option String)
      (st : IPInfoState) (fsys : FS) (res : Except EnsureError Unit)
      (st' : IPInfoState) (fs' : FS) (evs : List DBEvent),
      ensureDatabases get createErr copyErr openErr st fsys =
        (res, st', fs', evs) →
      (res = .ok () →
        openAfter evs =
          [joinPath st.dbDir cityDBName, joinPath st.dbDir asnDBName] ∧
        st'.cityReader = some (joinPath st.dbDir cityDBName) ∧
        st'.asnReader = some (joinPath st.dbDir asnDBName)) ∧
      (∀ e, res = .error e → openAfter evs = []) ∧
      (∀ c, res = .error (.databaseOpenError "asn" c) →
        DBEvent.closedHandle (joinPath st.dbDir cityDBName) ∈ evs) := by
  intro get createErr copyErr openErr st fsys res st' fs' evs h
  simp only [ensureDatabases] at h
  by_cases hc : fileExists fsys (joinPath st.dbDir cityDBName) = true
  case neg =>
    rw [if_neg hc] at h
    rcases hd : downloadFile get createErr copyErr fsys cityDBURL
        (joinPath st.dbDir cityDBName) with ⟨res1, fs1⟩
    rw [hd] at h
    cases res1 with
    | error e =>
      simp only [Prod.mk.injEq] at h
      obtain ⟨h1, h2, h3, h4⟩ := h
      subst h1 h2 h3 h4
      refine ⟨?_, ?_, ?_⟩ <;> intros <;> simp_all [openAfter]
    | ok u =>
      dsimp only at h
      by_cases ha : fileExists fs1 (joinPath st.dbDir asnDBName) = true
      case neg =>
        rw [if_neg ha] at h
        rcases hd2 : downloadFile get createErr copyErr fs1 asnDBURL
            (joinPath st.dbDir asnDBName) with ⟨res2, fs2⟩
        rw [hd2] at h
        cases res2 with
        | error e =>
          simp only [Prod.mk.injEq] at h
          obtain ⟨h1, h2, h3, h4⟩ := h
          subst h1 h2 h3 h4
          refine ⟨?_, ?_, ?_⟩ <;> intros <;> simp_all [openAfter]
        | ok u2 =>
          dsimp only at h
          cases ho1 : openErr (joinPath st.dbDir cityDBName)
              (lookupFS fs2 (joinPath st.dbDir cityDBName)) with
          | some c =>
            rw [ho1] at h
            simp only [Prod.mk.injEq] at h
            obtain ⟨h1, h2, h3, h4⟩ := h
            subst h1 h2 h3 h4
            refine ⟨?_, ?_, ?_⟩ <;> intros <;> simp_all [openAfter]
          | none =>
            rw [ho1] at h
            cases ho2 : openErr (joinPath st.dbDir asnDBName)
                (lookupFS fs2 (joinPath st.dbDir asnDBName)) with
            | some c =>
              rw [ho2] at h
              simp only [Prod.mk.injEq] at h
              obtain ⟨h1, h2, h3, h4⟩ := h
              subst h1 h2 h3 h4
              refine ⟨?_, ?_, ?_⟩ <;> intros <;> simp_all [openAfter]
            | none =>
              rw [ho2] at h
              simp only [Prod.mk.injEq] at h
              obtain ⟨h1, h2, h3, h4⟩ := h
              subst h1 h2 h3 h4
              refine ⟨?_, ?_, ?_⟩ <;> intros <;> simp_all [openAfter]
      case pos =>
        rw [if_pos ha] at h
        dsimp only at h
        cases ho1 : openErr (joinPath st.dbDir cityDBName)
            (lookupFS fs1 (joinPath st.dbDir cityDBName)) with
        | some c =>
          rw [ho1] at h
          simp only [Prod.mk.injEq] at h
          obtain ⟨h1, h2, h3, h4⟩ := h
          subst h1 h2 h3 h4
          refine ⟨?_, ?_, ?_⟩ <;> intros <;> simp_all [openAfter]
        | none =>
          rw [ho1] at h
          cases ho2 : openErr (joinPath st.dbDir asnDBName)
              (lookupFS fs1 (joinPath st.dbDir asnDBName)) with
          | some c =>
            rw [ho2] at h
            simp only [Prod.mk.injEq] at h
            obtain ⟨h1, h2, h3, h4⟩ := h
            subst h1 h2 h3 h4
            refine ⟨?_, ?_, ?_⟩ <;> intros <;> simp_all [openAfter]
          | none =>
            rw [ho2] at h
            simp only [Prod.mk.injEq] at h
            obtain ⟨h1, h2, h3, h4⟩ := h
            subst h1 h2 h3 h4
            refine ⟨?_, ?_, ?_⟩ <;> intros <;> simp_all [openAfter]
  case pos =>
    rw [if_pos hc] at h
    dsimp only at h
    by_cases ha : fileExists fsys (joinPath st.dbDir asnDBName) = true
    case neg =>
      rw [if_neg ha] at h
      rcases hd2 : downloadFile get createErr copyErr fsys asnDBURL
          (joinPath st.dbDir asnDBName) with ⟨res2, fs2⟩
      rw [hd2] at h
      cases res2 with
      | error e =>
        simp only [Prod.mk.injEq] at h
        obtain ⟨h1, h2, h3, h4⟩ := h
        subst h1 h2 h3 h4
        refine ⟨?_, ?_, ?_⟩ <;> intros <;> simp_all [openAfter]
      | ok u2 =>
        dsimp only at h
        cases ho1 : openErr (joinPath st.dbDir cityDBName)
            (lookupFS fs2 (joinPath st.dbDir cityDBName)) with
        | some c =>
          rw [ho1] at h
          simp only [Prod.mk.injEq] at h
          obtain ⟨h1, h2, h3, h4⟩ := h
          subst h1 h2 h3 h4
          refine ⟨?_, ?_, ?_⟩ <;> intros <;> simp_all [openAfter]
        | none =>
          rw [ho1] at h
          cases ho2 : openErr (joinPath st.dbDir asnDBName)
              (lookupFS fs2 (joinPath st.dbDir asnDBName)) with
          | some c =>
            rw [ho2] at h
            simp only [Prod.mk.injEq] at h
            obtain ⟨h1, h2, h3, h4⟩ := h
            subst h1 h2 h3 h4
            refine ⟨?_, ?_, ?_⟩ <;> intros <;> simp_all [openAfter]
          | none =>
            rw [ho2] at h
            simp only [Prod.mk.injEq] at h
            obtain ⟨h1, h2, h3, h4⟩ := h
            subst h1 h2 h3 h4
            refine ⟨?_, ?_, ?_⟩ <;> intros <;> simp_all [openAfter]
    case pos =>
      rw [if_pos ha] at h
      dsimp only at h
      cases ho1 : openErr (joinPath st.dbDir cityDBName)
          (lookupFS fsys (joinPath st.dbDir cityDBName)) with
      | some c =>
        rw [ho1] at h
        simp only [Prod.mk.injEq] at h
        obtain ⟨h1, h2, h3, h4⟩ := h
        subst h1 h2 h3 h4
        refine ⟨?_, ?_, ?_⟩ <;> intros <;> simp_all [openAfter]
      | none =>
        rw [ho1] at h
        cases ho2 : openErr (joinPath st.dbDir asnDBName)
            (lookupFS fsys (joinPath st.dbDir asnDBName)) with
        | some c =>
          rw [ho2] at h
          simp only [Prod.mk.injEq] at h
          obtain ⟨h1, h2, h3, h4⟩ := h
          subst h1 h2 h3 h4
          refine ⟨?_, ?_, ?_⟩ <;> intros <;> simp_all [openAfter]
        | none =>
          rw [ho2] at h
          simp only [Prod.mk.injEq] at h
          obtain ⟨h1, h2, h3, h4⟩ := h
          subst h1 h2 h3 h4
          refine ⟨?_, ?_, ?_⟩ <;> intros <;> simp_all [openAfter]

/-- Witness for C2: with both files on disk and both opens succeeding,
exactly the two handles are open and the fields hold them. -/
theorem ensureDatabases_all_or_nothing_witness :
    openAfter [DBEvent.openedHandle (joinPath "d" cityDBName),
               DBEvent.openedHandle (joinPath "d" asnDBName)] =
      [joinPath "d" cityDBName, joinPath "d" asnDBName] ∧
    (some (joinPath "d" cityDBName) : Option String) =
      some (joinPath "d" cityDBName) ∧
    (some (joinPath "d" asnDBName) : Option String) =
      some (joinPath "d" asnDBName) :=
  (ensureDatabases_all_or_nothing (fun _ => .err "offline")
    (fun _ => none) (fun _ => none) (fun _ _ => none)
    { cityReader := none, asnReader := none, dbDir := "d" }
    [(joinPath "d" cityDBName, "c"), (joinPath "d" asnDBName, "a")]
    (.ok ()) { cityReader := some (joinPath "d" cityDBName),
               asnReader := some (joinPath "d" asnDBName), dbDir := "d" }
    [(joinPath "d" cityDBName, "c"), (joinPath "d" asnDBName, "a")]
    [DBEvent.openedHandle (joinPath "d" cityDBName),
     DBEvent.openedHandle (joinPath "d" asnDBName)] rfl).1 rfl

/-- C5: provisioning never refetches a present file.  If both backing files
exist, no download is attempted; if exactly one is missing, exactly that one
URL is fetched and the content of the other file is unchanged in the final
filesystem. -/
theorem ensureDatabases_no_refetch :
    ∀ (get : String → HTTPResult) (createErr copyErr : String → Option String)
      (openErr : String → Option String → Option String)
      (st : IPInfoState) (fsys : FS) (res : Except EnsureError Unit)
      (st' : IPInfoState) (fs' : FS) (evs : List DBEvent),
      ensureDatabases get createErr copyErr openErr st fsys =
        (res, st', fs', evs) →
      (fileExists fsys (joinPath st.dbDir cityDBName) = true →
       fileExists fsys (joinPath st.dbDir asnDBName) = true →
       downloadsOf evs = []) ∧
      (fileExists fsys (joinPath st.dbDir cityDBName) = false →
       fileExists fsys (joinPath st.dbDir asnDBName) = true →
       downloadsOf evs = [cityDBURL] ∧
       lookupFS fs' (joinPath st.dbDir asnDBName) =
         lookupFS fsys (joinPath st.dbDir asnDBName)) ∧
      (fileExists fsys (joinPath st.dbDir cityDBName) = true →
       fileExists fsys (joinPath st.dbDir asnDBName) = false →
       downloadsOf evs = [asnDBURL] ∧
       lookupFS fs' (joinPath st.dbDir cityDBName) =
         lookupFS fsys (joinPath st.dbDir cityDBName)) := by
  intro get createErr copyErr openErr st fsys res st' fs' evs h
  have hne := cityPath_ne_asnPath st.dbDir
  simp only [ensureDatabases] at h
  refine ⟨?_, ?_, ?_⟩
  · intro hc ha
    rw [if_pos hc] at h
    dsimp only at h
    rw [if_pos ha] at h
    dsimp only at h
    cases ho1 : openErr (joinPath st.dbDir cityDBName)
        (lookupFS fsys (joinPath st.dbDir cityDBName)) with
    | some c =>
      rw [ho1] at h
      simp only [Prod.mk.injEq] at h
      obtain ⟨h1, h2, h3, h4⟩ := h
      subst h4
      simp [downloadsOf]
    | none =>
      rw [ho1] at h
      cases ho2 : openErr (joinPath st.dbDir asnDBName)
          (lookupFS fsys (joinPath st.dbDir asnDBName)) with
      | some c =>
        rw [ho2] at h
        simp only [Prod.mk.injEq] at h
        obtain ⟨h1, h2, h3, h4⟩ := h
        subst h4
        simp [downloadsOf]
      | none =>
        rw [ho2] at h
        simp only [Prod.mk.injEq] at h
        obtain ⟨h1, h2, h3, h4⟩ := h
        subst h4
        simp [downloadsOf]
  · intro hc ha
    have hc' : ¬ fileExists fsys (joinPath st.dbDir cityDBName) = true := by
      simp [hc]
    rw [if_neg hc'] at h
    rcases hd : downloadFile get createErr copyErr fsys cityDBURL
        (joinPath st.dbDir cityDBName) with ⟨res1, fs1⟩
    have hpres : lookupFS fs1 (joinPath st.dbDir asnDBName) =
        lookupFS fsys (joinPath st.dbDir asnDBName) := by
      have hp := downloadFile_lookup_ne get createErr copyErr fsys cityDBURL
        (joinPath st.dbDir cityDBName) (joinPath st.dbDir asnDBName)
        (Ne.symm hne)
      rw [hd] at hp
      exact hp
    rw [hd] at h
    cases res1 with
    | error e =>
      dsimp only at h
      simp only [Prod.mk.injEq] at h
      obtain ⟨h1, h2, h3, h4⟩ := h
      subst h3 h4
      exact ⟨by simp [downloadsOf], hpres⟩
    | ok u =>
      dsimp only at h
      have ha1 : fileExists fs1 (joinPath st.dbDir asnDBName) = true := by
        unfold fileExists at ha ⊢
        rw [hpres]
        exact ha
      rw [if_pos ha1] at h
      dsimp only at h
      cases ho1 : openErr (joinPath st.dbDir cityDBName)
          (lookupFS fs1 (joinPath st.dbDir cityDBName)) with
      | some c =>
        rw [ho1] at h
        simp only [Prod.mk.injEq] at h
        obtain ⟨h1, h2, h3, h4⟩ := h
        subst h3 h4
        exact ⟨by simp [downloadsOf], hpres⟩
      | none =>
        rw [ho1] at h
        cases ho2 : openErr (joinPath st.dbDir asnDBName)
            (lookupFS fs1 (joinPath st.dbDir asnDBName)) with
        | some c =>
          rw [ho2] at h
          simp only [Prod.mk.injEq] at h
          obtain ⟨h1, h2, h3, h4⟩ := h
          subst h3 h4
          exact ⟨by simp [downloadsOf], hpres⟩
        | none =>
          rw [ho2] at h
          simp only [Prod.mk.injEq] at h
          obtain ⟨h1, h2, h3, h4⟩ := h
          subst h3 h4
          exact ⟨by simp [downloadsOf], hpres⟩
  · intro hc ha
    rw [if_pos hc] at h
    dsimp only at h
    have ha' : ¬ fileExists fsys (joinPath st.dbDir asnDBName) = true := by
      simp [ha]
    rw [if_neg ha'] at h
    rcases hd2 : downloadFile get createErr copyErr fsys asnDBURL
        (joinPath st.dbDir asnDBName) with ⟨res2, fs2⟩
    have hpres : lookupFS fs2 (joinPath st.dbDir cityDBName) =
        lookupFS fsys (joinPath st.dbDir cityDBName) := by
      have hp := downloadFile_lookup_ne get createErr copyErr fsys asnDBURL
        (joinPath st.dbDir asnDBName) (joinPath st.dbDir cityDBName) hne
      rw [hd2] at hp
      exact hp
    rw [hd2] at h
    cases res2 with
    | error e =>
      dsimp only at h
      simp only [Prod.mk.injEq] at h
      obtain ⟨h1, h2, h3, h4⟩ := h
      subst h3 h4
      exact ⟨by simp [downloadsOf], hpres⟩
    | ok u2 =>
      dsimp only at h
      cases ho1 : openErr (joinPath st.dbDir cityDBName)
          (lookupFS fs2 (joinPath st.dbDir cityDBName)) with
      | some c =>
        rw [ho1] at h
        simp only [Prod.mk.injEq] at h
        obtain ⟨h1, h2, h3, h4⟩ := h
        subst h3 h4
        exact ⟨by simp [downloadsOf], hpres⟩
      | none =>
        rw [ho1] at h
        cases ho2 : openErr (joinPath st.dbDir asnDBName)
            (lookupFS fs2 (joinPath st.dbDir asnDBName)) with
        | some c =>
          rw [ho2] at h
          simp only [Prod.mk.injEq] at h
          obtain ⟨h1, h2, h3, h4⟩ := h
          subst h3 h4
          exact ⟨by simp [downloadsOf], hpres⟩
        | none =>
          rw [ho2] at h
          simp only [Prod.mk.injEq] at h
          obtain ⟨h1, h2, h3, h4⟩ := h
          subst h3 h4
          exact ⟨by simp [downloadsOf], hpres⟩

/-- Witness for C5: with both files present no download attempt appears in
the event trace. -/
theorem ensureDatabases_no_refetch_witness :
    downloadsOf [DBEvent.openedHandle (joinPath "d" cityDBName),
                 DBEvent.openedHandle (joinPath "d" asnDBName)] = [] :=
  (ensureDatabases_no_refetch (fun _ => .err "offline")
    (fun _ => none) (fun _ => none) (fun _ _ => none)
    { cityReader := none, asnReader := none, dbDir := "d" }
    [(joinPath "d" cityDBName, "c"), (joinPath "d" asnDBName, "a")]
    (.ok ()) { cityReader := some (joinPath "d" cityDBName),
               asnReader := some (joinPath "d" asnDBName), dbDir := "d" }
    [(joinPath "d" cityDBName, "c"), (joinPath "d" asnDBName, "a")]
    [DBEvent.openedHandle (joinPath "d" cityDBName),
     DBEvent.openedHandle (joinPath "d" asnDBName)] rfl).1 rfl rfl

/-- C8: every error the component returns carries the underlying cause, and
no internal failure is swallowed.  Each failing suboperation's message is
embedded in the returned error (`CityLookupError`/`ASNLookupError` in
`GetIPInfo`; transport causes in `downloadFile`; home-directory, `MkdirAll`
and propagated provisioning causes in `NewIPInfo`; download and open causes
in `ensureDatabases`), a parse failure — which has no underlying error
value — yields exactly `InvalidAddressError`, and a lookup succeeds only when
every suboperation succeeded. -/
theorem errors_carry_cause :
    (∀ (parseIP : String → Option String)
       (cityDB : String → Except String CityResult)
       (asnDB : String → Except String ASNResult) (ip : String),
      parseIP ip = none →
      (GetIPInfo parseIP cityDB asnDB ip).1 = .error .invalidAddressError) ∧
    (∀ (parseIP : String → Option String)
       (cityDB : String → Except String CityResult)
       (asnDB : String → Except String ASNResult) (ip p c : String),
      parseIP ip = some p → cityDB p = .error c →
      (GetIPInfo parseIP cityDB asnDB ip).1 =
        .error (.cityLookupError c)) ∧
    (∀ (parseIP : String → Option String)
       (cityDB : String → Except String CityResult)
       (asnDB : String → Except String ASNResult) (ip p : String)
       (city : CityResult) (c : String),
      parseIP ip = some p → cityDB p = .ok city → asnDB p = .error c →
      (GetIPInfo parseIP cityDB asnDB ip).1 =
        .error (.asnLookupError c)) ∧
    (∀ (parseIP : String → Option String)
       (cityDB : String → Except String CityResult)
       (asnDB : String → Except String ASNResult) (ip : String)
       (d : IPDetails),
      (GetIPInfo parseIP cityDB asnDB ip).1 = .ok d →
      ∃ p city asn, parseIP ip = some p ∧ cityDB p = .ok city ∧
        asnDB p = .ok asn) ∧
    (∀ (get : String → HTTPResult) (createErr copyErr : String → Option String)
       (fsys : FS) (url fpath c : String),
      get url = .err c →
      (downloadFile get createErr copyErr fsys url fpath).1 =
        .error (.transportError c)) ∧
    (∀ (userHomeDir : Except String String)
       (mkdirAllErr : String → Option String) (get : String → HTTPResult)
       (createErr copyErr : String → Option String)
       (openErr : String → Option String → Option String)
       (fsys : FS) (c : String),
      userHomeDir = .error c →
      (NewIPInfo userHomeDir mkdirAllErr get createErr copyErr openErr ""
        fsys).1 = .error (.configError c)) ∧
    (∀ (userHomeDir : Except String String)
       (mkdirAllErr : String → Option String) (get : String → HTTPResult)
       (createErr copyErr : String → Option String)
       (openErr : String → Option String → Option String)
       (d : String) (fsys : FS) (c : String),
      d ≠ "" → mkdirAllErr d = some c →
      (NewIPInfo userHomeDir mkdirAllErr get createErr copyErr openErr d
        fsys).1 = .error (.configError c)) ∧
    (∀ (userHomeDir : Except String String)
       (mkdirAllErr : String → Option String) (get : String → HTTPResult)
       (createErr copyErr : String → Option String)
       (openErr : String → Option String → Option String)
       (d : String) (fsys : FS) (e : EnsureError) (st' : IPInfoState)
       (fs' : FS) (evs : List DBEvent),
      d ≠ "" → mkdirAllErr d = none →
      ensureDatabases get createErr copyErr openErr
        { cityReader := none, asnReader := none, dbDir := d } fsys =
        (.error e, st', fs', evs) →
      (NewIPInfo userHomeDir mkdirAllErr get createErr copyErr openErr d
        fsys).1 = .error (.ensureError e)) ∧
    (∀ (get : String → HTTPResult) (createErr copyErr : String → Option String)
       (openErr : String → Option String → Option String)
       (st : IPInfoState) (fsys : FS) (e : DLError) (fs1 : FS),
      fileExists fsys (joinPath st.dbDir cityDBName) = false →
      downloadFile get createErr copyErr fsys cityDBURL
        (joinPath st.dbDir cityDBName) = (.error e, fs1) →
      (ensureDatabases get createErr copyErr openErr st fsys).1 =
        .error (.downloadError "city" e)) ∧
    (∀ (get : String → HTTPResult) (createErr copyErr : String → Option String)
       (openErr : String → Option String → Option String)
       (st : IPInfoState) (fsys : FS) (c : String),
      fileExists fsys (joinPath st.dbDir cityDBName) = true →
      fileExists fsys (joinPath st.dbDir asnDBName) = true →
      openErr (joinPath st.dbDir cityDBName)
        (lookupFS fsys (joinPath st.dbDir cityDBName)) = some c →
      (ensureDatabases get createErr copyErr openErr st fsys).1 =
        .error (.databaseOpenError "city" c)) ∧
    (∀ (get : String → HTTPResult) (createErr copyErr : String → Option String)
       (openErr : String → Option String → Option String)
       (st : IPInfoState) (fsys : FS) (c : String),
      fileExists fsys (joinPath st.dbDir cityDBName) = true →
      fileExists fsys (joinPath st.dbDir asnDBName) = true →
      openErr (joinPath st.dbDir cityDBName)
        (lookupFS fsys (joinPath st.dbDir cityDBName)) = none →
      openErr (joinPath st.dbDir asnDBName)
        (lookupFS fsys (joinPath st.dbDir asnDBName)) = some c →
      (ensureDatabases get createErr copyErr openErr st fsys).1 =
        .error (.databaseOpenError "asn" c)) := by
  refine ⟨?_, ?_, ?_, ?_, ?_, ?_, ?_, ?_, ?_, ?_, ?_⟩
  · intro parseIP cityDB asnDB ip h
    simp [GetIPInfo, h]
  · intro parseIP cityDB asnDB ip p c hp hc
    simp [GetIPInfo, hp, hc]
  · intro parseIP cityDB asnDB ip p city c hp hc ha
    simp [GetIPInfo, hp, hc, ha]
  · intro parseIP cityDB asnDB ip d h
    cases hp : parseIP ip with
    | none => simp [GetIPInfo, hp] at h
    | some p =>
      cases hc : cityDB p with
      | error e => simp [GetIPInfo, hp, hc] at h
      | ok city =>
        cases ha : asnDB p with
        | error e => simp [GetIPInfo, hp, hc, ha] at h
        | ok asn => exact ⟨p, city, asn, rfl, hc, ha⟩
  · intro get createErr copyErr fsys url fpath c h
    simp [downloadFile, h]
  · intro userHomeDir mkdirAllErr get createErr copyErr openErr fsys c h
    simp [NewIPInfo, h]
  · intro userHomeDir mkdirAllErr get createErr copyErr openErr d fsys c
      hd hmk
    simp only [NewIPInfo]
    rw [if_neg hd]
    dsimp only
    rw [hmk]
  · intro userHomeDir mkdirAllErr get createErr copyErr openErr d fsys e
      st' fs' evs hd hmk hE
    simp only [NewIPInfo]
    rw [if_neg hd]
    dsimp only
    rw [hmk]
    dsimp only
    rw [hE]
  · intro get createErr copyErr openErr st fsys e fs1 hc hd
    simp only [ensureDatabases]
    rw [if_neg (by simp [hc])]
    rw [hd]
  · intro get createErr copyErr openErr st fsys c hc ha ho
    simp only [ensureDatabases]
    rw [if_pos hc]
    dsimp only
    rw [if_pos ha]
    dsimp only
    rw [ho]
  · intro get createErr copyErr openErr st fsys c hc ha ho1 ho2
    simp only [ensureDatabases]
    rw [if_pos hc]
    dsimp only
    rw [if_pos ha]
    dsimp only
    rw [ho1]
    dsimp only
    rw [ho2]

/-- Witness for C8: a concrete failing city query surfaces as a
`CityLookupError` wrapping the query's own message. -/
theorem errors_carry_cause_witness :
    (GetIPInfo (fun _ => some "9.9.9.9")
      (fun _ => .error "no city record") (fun _ => .ok ⟨1, "a"⟩)
      "9.9.9.9").1 = .error (.cityLookupError "no city record") :=
  errors_carry_cause.2.1 (fun _ => some "9.9.9.9")
    (fun _ => .error "no city record") (fun _ => .ok ⟨1, "a"⟩)
    "9.9.9.9" "9.9.9.9" "no city record" rfl rfl

/-- C3 counterexample: a response with the 2xx status 201 is rejected by
`downloadFile` with the bad-status error — the code accepts only status
exactly 200 (`http.StatusOK`), so "2xx implies success" fails. -/
theorem downloadFile_2xx_not_sufficient :
    (200 ≤ 201 ∧ 201 < 300) ∧
    downloadFile (fun _ => .ok ⟨201, "201 Created", "content"⟩)
      (fun _ => none) (fun _ => none) [] "http://u" "/tmp/f" =
      (.error (.badStatus "201 Created"), []) :=
  ⟨by decide, rfl⟩

/-- C3 (amended): `downloadFile` fails with a transport error when `http.Get`
fails, fails with the bad-status error on every status other than exactly 200
(including 2xx statuses such as 201), and on status 200 streams the full
response body to the destination file, succeeding unless a local `os.Create`
or `io.Copy` error intervenes (each of which it propagates). -/
theorem downloadFile_status_spec :
    ∀ (get : String → HTTPResult) (createErr copyErr : String → Option String)
      (fsys : FS) (url fpath : String),
      (∀ c, get url = .err c →
        downloadFile get createErr copyErr fsys url fpath =
          (.error (.transportError c), fsys)) ∧
      (∀ r, get url = .ok r → r.statusCode ≠ 200 →
        downloadFile get createErr copyErr fsys url fpath =
          (.error (.badStatus r.status), fsys)) ∧
      (∀ r, get url = .ok r → r.statusCode = 200 →
        createErr fpath = none → copyErr fpath = none →
        downloadFile get createErr copyErr fsys url fpath =
          (.ok (), setFS (setFS fsys fpath "") fpath r.body) ∧
        lookupFS (setFS (setFS fsys fpath "") fpath r.body) fpath =
          some r.body) ∧
      (∀ r c, get url = .ok r → r.statusCode = 200 →
        createErr fpath = some c →
        downloadFile get createErr copyErr fsys url fpath =
          (.error (.createError c), fsys)) ∧
      (∀ r c, get url = .ok r → r.statusCode = 200 →
        createErr fpath = none → copyErr fpath = some c →
        downloadFile get createErr copyErr fsys url fpath =
          (.error (.copyError c), setFS fsys fpath "")) := by
  intro get createErr copyErr fsys url fpath
  refine ⟨?_, ?_, ?_, ?_, ?_⟩
  · intro c h
    simp [downloadFile, h]
  · intro r h hs
    simp [downloadFile, h, hs]
  · intro r h hs hc hp
    refine ⟨by simp [downloadFile, h, hs, hc, hp], ?_⟩
    simp [lookupFS, setFS]
  · intro r c h hs hc
    simp [downloadFile, h, hs, hc]
  · intro r c h hs hc hp
    simp [downloadFile, h, hs, hc, hp]

/-- Witness for the amended C3 theorem: a concrete 200 download streams the
body into the destination file. -/
theorem downloadFile_status_spec_witness :
    downloadFile (fun _ => .ok ⟨200, "200 OK", "mmdb-bytes"⟩)
      (fun _ => none) (fun _ => none) [] "http://u" "/tmp/f" =
      (.ok (), setFS (setFS [] "/tmp/f" "") "/tmp/f" "mmdb-bytes") ∧
    lookupFS (setFS (setFS [] "/tmp/f" "") "/tmp/f" "mmdb-bytes") "/tmp/f" =
      some "mmdb-bytes" :=
  (downloadFile_status_spec (fun _ => .ok ⟨200, "200 OK", "mmdb-bytes"⟩)
    (fun _ => none) (fun _ => none) [] "http://u" "/tmp/f").2.2.1
    ⟨200, "200 OK", "mmdb-bytes"⟩ rfl rfl rfl rfl

end ZScan
